import Mathlib

/-!
# Terminal raw-mode controller (`src/raw_mode.c`)

A shallow embedding of the two operations `enter_raw_mode` and `exit_raw_mode`
together with the part of the terminal-control interface they call
(`tcgetattr`, `tcsetattr`, `cfmakeraw`).

The program state is the static `old_settings` slot.  The operating system is
a table from descriptors to terminal devices, the attribute set of every
device, and the record of the terminal-control calls received so far.
Machine words are natural numbers; `tcflag_t` is 32 bits wide.
-/

namespace RawMode

/-! ## Terminal attributes (`<termios.h>`, Linux values) -/

/-- Size of the control-character table `c_cc`. -/
def NCCS : Nat := 32

/-- The attribute set `struct termios`: four flag words, the line discipline,
the control-character table and the two speeds. -/
structure Termios where
  c_iflag : Nat
  c_oflag : Nat
  c_cflag : Nat
  c_lflag : Nat
  c_line : Nat
  c_cc : Fin NCCS → Nat
  c_ispeed : Nat
  c_ospeed : Nat

/-- The zero-valued attribute set: what a static `struct termios` holds before
anything is stored in it. -/
def Termios.zero : Termios :=
  { c_iflag := 0, c_oflag := 0, c_cflag := 0, c_lflag := 0, c_line := 0,
    c_cc := fun _ => 0, c_ispeed := 0, c_ospeed := 0 }

-- c_iflag bits
def IGNBRK : Nat := 0o000001
def BRKINT : Nat := 0o000002
def PARMRK : Nat := 0o000010
def ISTRIP : Nat := 0o000040
def INLCR : Nat := 0o000100
def IGNCR : Nat := 0o000200
def ICRNL : Nat := 0o000400
def IXON : Nat := 0o002000
-- c_oflag bits
def OPOST : Nat := 0o000001
-- c_cflag bits
def CSIZE : Nat := 0o000060
def CS8 : Nat := 0o000060
def PARENB : Nat := 0o000400
-- c_lflag bits
def ISIG : Nat := 0o000001
def ICANON : Nat := 0o000002
def ECHO : Nat := 0o000010
def ECHONL : Nat := 0o000100
def IEXTEN : Nat := 0o100000
-- c_cc indices
def VTIME : Fin NCCS := ⟨5, by decide⟩
def VMIN : Fin NCCS := ⟨6, by decide⟩

/-- Largest value of a `tcflag_t` (32-bit unsigned). -/
def TCFLAG_MAX : Nat := 0xFFFFFFFF

/-- The C statement `x &= ~mask` on a `tcflag_t`. -/
def clearFlags (x mask : Nat) : Nat := x &&& (TCFLAG_MAX ^^^ mask)

/-- The C statement `x |= mask` on a `tcflag_t`. -/
def setFlags (x mask : Nat) : Nat := (x ||| mask) % 2 ^ 32

/-- The C library's `cfmakeraw` (glibc `termios/cfmakeraw.c`; musl and the BSD
libc set the same `VMIN` and `VTIME`):
```
t->c_iflag &= ~(IGNBRK|BRKINT|PARMRK|ISTRIP|INLCR|IGNCR|ICRNL|IXON);
t->c_oflag &= ~OPOST;
t->c_lflag &= ~(ECHO|ECHONL|ICANON|ISIG|IEXTEN);
t->c_cflag &= ~(CSIZE|PARENB);
t->c_cflag |= CS8;
t->c_cc[VMIN] = 1;
t->c_cc[VTIME] = 0;
```
-/
def cfmakeraw (t : Termios) : Termios :=
  { t with
    c_iflag := clearFlags t.c_iflag
      (IGNBRK ||| BRKINT ||| PARMRK ||| ISTRIP ||| INLCR ||| IGNCR ||| ICRNL ||| IXON)
    c_oflag := clearFlags t.c_oflag OPOST
    c_lflag := clearFlags t.c_lflag (ECHO ||| ECHONL ||| ICANON ||| ISIG ||| IEXTEN)
    c_cflag := setFlags (clearFlags t.c_cflag (CSIZE ||| PARENB)) CS8
    c_cc := Function.update (Function.update t.c_cc VMIN 1) VTIME 0 }

/-! ## The operating system's terminal-control facility -/

/-- A terminal-control call as the operating system receives it. -/
inductive Call where
  | tcgetattr (fd : Int)
  | tcsetattr (fd : Int) (optional_actions : Int) (termios_p : Termios)

/-- The operating system as far as terminal control goes. -/
structure Kernel where
  /-- The terminal device behind a descriptor; `none` when the descriptor is
  invalid or is not a terminal. -/
  fdtab : Int → Option Nat
  /-- The attribute set of every terminal device. -/
  attrs : Nat → Termios
  /-- The calls received so far, oldest first. -/
  calls : List Call

/-- Change the attributes at once. -/
def TCSANOW : Int := 0
/-- Change the attributes once the pending output is written. -/
def TCSADRAIN : Int := 1
/-- As `TCSADRAIN`, and discard the pending input. -/
def TCSAFLUSH : Int := 2

/-- The call `tcgetattr(fd, termios_p)`: on success returns `0` and fills the
buffer with the device's attributes; on failure returns `-1` and leaves the
buffer as it was.  It fails when the descriptor is not a terminal, or when
`fault` says the operating system fails the call for another reason. -/
def tcgetattr (fault : Bool) (fd : Int) (termios_p : Termios) (k : Kernel) :
    Int × Termios × Kernel :=
  let k1 : Kernel := { k with calls := k.calls ++ [Call.tcgetattr fd] }
  match k.fdtab fd with
  | none => (-1, termios_p, k1)
  | some d => if fault then (-1, termios_p, k1) else (0, k.attrs d, k1)

/-- The call `tcsetattr(fd, optional_actions, termios_p)`: on success returns
`0` and the device takes the given attributes; on failure returns `-1` and the
device is unchanged.  It fails when the descriptor is not a terminal, when
`optional_actions` is not one of the three actions, or when `fault` says the
operating system fails the call for another reason.

Idealisation: a successful call stores exactly the set it is given.  A real
driver does so for a set that the device reported through `tcgetattr`, also
after `cfmakeraw`, but it may force or keep bits of a set that no device
reported (a Linux pseudo-terminal reads back `c_cflag = 0xb0` after the
zero-valued set is applied).  The device state after a successful call is
therefore relied on only for sets obtained from the device. -/
def tcsetattr (fault : Bool) (fd : Int) (optional_actions : Int) (termios_p : Termios)
    (k : Kernel) : Int × Kernel :=
  let k1 : Kernel :=
    { k with calls := k.calls ++ [Call.tcsetattr fd optional_actions termios_p] }
  match k.fdtab fd with
  | none => (-1, k1)
  | some d =>
    if fault ∨ ¬ (optional_actions = TCSANOW ∨ optional_actions = TCSADRAIN
        ∨ optional_actions = TCSAFLUSH) then (-1, k1)
    else (0, { k1 with attrs := Function.update k.attrs d termios_p })

/-! ## The program -/

/-- The constant `const int STDOUT_FILENO = 1;`. -/
def STDOUT_FILENO : Int := 1

/-- The process: the operating system and the static slot
`static struct termios old_settings;`. -/
structure World where
  kernel : Kernel
  old_settings : Termios

/-- The state at program start: static storage is zero-valued. -/
def World.start (k : Kernel) : World :=
  { kernel := k, old_settings := Termios.zero }

/-- The function `enter_raw_mode`.  `settings` is the content of the local
buffer before anything is stored in it; `fault_get` and `fault_set` are the
operating system's choices for the two calls.  The two return values are
dropped, as in the source. -/
def enter_raw_mode (settings : Termios) (fault_get fault_set : Bool) (w : World) : World :=
  let (_, settings, kernel) := tcgetattr fault_get STDOUT_FILENO settings w.kernel
  let old_settings := settings
  let settings := cfmakeraw settings
  let (_, kernel) := tcsetattr fault_set STDOUT_FILENO TCSANOW settings kernel
  { kernel := kernel, old_settings := old_settings }

/-- The function `exit_raw_mode`.  `fault_set` is the operating system's
choice for the call; the return value is dropped, as in the source. -/
def exit_raw_mode (fault_set : Bool) (w : World) : World :=
  let (_, kernel) := tcsetattr fault_set STDOUT_FILENO TCSANOW w.old_settings w.kernel
  { kernel := kernel, old_settings := w.old_settings }

/-! ## Sequences of calls and sample data -/

/-- One call of the program's interface; `enter` carries the content of the
local buffer before the query. -/
inductive Op where
  | enter (settings : Termios)
  | exit

/-- Run one operation with both operating-system calls free of faults. -/
def Op.run (w : World) : Op → World
  | Op.enter settings => enter_raw_mode settings false false w
  | Op.exit => exit_raw_mode false w

/-- Run a finite sequence of operations, first to last. -/
def runOps (ops : List Op) (w : World) : World := ops.foldl Op.run w

/-- The descriptor a call is made on. -/
def Call.fd : Call → Int
  | Call.tcgetattr fd => fd
  | Call.tcsetattr fd _ _ => fd

/-- The attribute set of the most recent call, when that call is an apply. -/
def lastApplied (k : Kernel) : Option Termios :=
  match k.calls.getLast? with
  | some (Call.tcsetattr _ _ termios_p) => some termios_p
  | _ => none

/-- The non-canonical read that returns at once with whatever is available,
possibly nothing: `MIN = 0` and `TIME = 0`, the polling read of termios(3). -/
def pollingRead (t : Termios) : Prop := t.c_cc VMIN = 0 ∧ t.c_cc VTIME = 0

/-- The non-canonical read that blocks until one byte is available and then
returns what is available: `MIN = 1` and `TIME = 0`. -/
def blockingByteRead (t : Termios) : Prop := t.c_cc VMIN = 1 ∧ t.c_cc VTIME = 0

/-- A cooked attribute set: the usual settings of a Linux terminal. -/
def cookedSample : Termios :=
  { c_iflag := 0x4500, c_oflag := 0x5, c_cflag := 0xbf, c_lflag := 0x8a3b, c_line := 0,
    c_cc := fun i => [3, 28, 127, 21, 4, 0, 1, 0, 17, 19, 26, 0, 18, 15, 23, 22].getD i.val 0,
    c_ispeed := 15, c_ospeed := 15 }

/-- An attribute set that is already raw: `cfmakeraw` leaves it as it is. -/
def rawSample : Termios :=
  { c_iflag := 0x4000, c_oflag := 0x4, c_cflag := 0xbf, c_lflag := 0xa30, c_line := 0,
    c_cc := fun i => [3, 28, 127, 21, 4, 0, 1, 0, 17, 19, 26, 0, 18, 15, 23, 22].getD i.val 0,
    c_ispeed := 15, c_ospeed := 15 }

/-- A process whose descriptors 0, 1 and 2 are terminal device 0 and whose
descriptor 3 is terminal device 1; every device has the attributes `t`. -/
def sampleWorld (t : Termios) : World :=
  { kernel :=
      { fdtab := fun fd => if fd = 0 ∨ fd = 1 ∨ fd = 2 then some 0
                           else if fd = 3 then some 1 else none
        attrs := fun _ => t
        calls := [] }
    old_settings := Termios.zero }

/-- A process whose standard output is not a terminal. -/
def pipedWorld (t : Termios) : World :=
  { kernel := { fdtab := fun fd => if fd = 0 then some 0 else none
                attrs := fun _ => t
                calls := [] }
    old_settings := Termios.zero }

/-- The invariant kept by every successful call: the device behind standard
output holds the snapshot or the raw transformation of the snapshot. -/
def Inv (d : Nat) (w : World) : Prop :=
  w.kernel.fdtab STDOUT_FILENO = some d ∧
    (w.kernel.attrs d = w.old_settings ∨ w.kernel.attrs d = cfmakeraw w.old_settings)

/-! ## Facts about the raw transformation -/

theorem clearFlags_lt (x mask : Nat) (hm : mask < 2 ^ 32) : clearFlags x mask < 2 ^ 32 := by
  unfold clearFlags
  have h1 : x &&& (TCFLAG_MAX ^^^ mask) ≤ TCFLAG_MAX ^^^ mask := Nat.and_le_right
  have h2 : TCFLAG_MAX ^^^ mask < 2 ^ 32 := Nat.xor_lt_two_pow (by decide) hm
  omega

theorem clearFlags_and_eq_zero (x mask bit : Nat) (h : (TCFLAG_MAX ^^^ mask) &&& bit = 0) :
    clearFlags x mask &&& bit = 0 := by
  unfold clearFlags
  rw [Nat.and_assoc, h, Nat.and_zero]

theorem clearFlags_idem (x mask : Nat) : clearFlags (clearFlags x mask) mask = clearFlags x mask := by
  unfold clearFlags
  rw [Nat.and_assoc, Nat.and_self]

theorem setFlags_of_lt (x mask : Nat) (hx : x < 2 ^ 32) (hm : mask < 2 ^ 32) :
    setFlags x mask = x ||| mask := by
  unfold setFlags
  exact Nat.mod_eq_of_lt (Nat.or_lt_two_pow hx hm)

theorem cflag_idem (x : Nat) :
    setFlags (clearFlags (setFlags (clearFlags x (CSIZE ||| PARENB)) CS8) (CSIZE ||| PARENB)) CS8
      = setFlags (clearFlags x (CSIZE ||| PARENB)) CS8 := by
  have hlt : clearFlags x (CSIZE ||| PARENB) < 2 ^ 32 := clearFlags_lt x _ (by decide)
  rw [setFlags_of_lt _ _ hlt (by decide)]
  have h : clearFlags (clearFlags x (CSIZE ||| PARENB) ||| CS8) (CSIZE ||| PARENB)
      = clearFlags x (CSIZE ||| PARENB) := by
    unfold clearFlags
    rw [Nat.and_distrib_right, Nat.and_assoc, Nat.and_self]
    have hc : CS8 &&& (TCFLAG_MAX ^^^ (CSIZE ||| PARENB)) = 0 := by decide
    rw [hc, Nat.or_zero]
  rw [h, setFlags_of_lt _ _ hlt (by decide)]

theorem cc_idem (f : Fin NCCS → Nat) :
    Function.update (Function.update (Function.update (Function.update f VMIN 1) VTIME 0) VMIN 1)
      VTIME 0 = Function.update (Function.update f VMIN 1) VTIME 0 := by
  funext i
  by_cases h5 : i = VTIME
  · subst h5
    simp [Function.update]
  · by_cases h6 : i = VMIN
    · simp [Function.update, h5, h6]
    · simp [Function.update, h5, h6]

/-- The raw transformation applied twice is the raw transformation. -/
theorem cfmakeraw_idem (t : Termios) : cfmakeraw (cfmakeraw t) = cfmakeraw t := by
  cases t
  simp only [cfmakeraw, clearFlags_idem, cflag_idem, cc_idem]

theorem cfmakeraw_icanon (t : Termios) : (cfmakeraw t).c_lflag &&& ICANON = 0 :=
  clearFlags_and_eq_zero _ _ _ (by decide)

theorem cfmakeraw_echo (t : Termios) : (cfmakeraw t).c_lflag &&& ECHO = 0 :=
  clearFlags_and_eq_zero _ _ _ (by decide)

theorem cfmakeraw_isig (t : Termios) : (cfmakeraw t).c_lflag &&& ISIG = 0 :=
  clearFlags_and_eq_zero _ _ _ (by decide)

theorem cfmakeraw_vmin (t : Termios) : (cfmakeraw t).c_cc VMIN = 1 := by
  simp [cfmakeraw, Function.update, VMIN, VTIME]

theorem cfmakeraw_vtime (t : Termios) : (cfmakeraw t).c_cc VTIME = 0 := by
  simp [cfmakeraw, Function.update]

/-- A cooked attribute set is changed by the raw transformation. -/
theorem cfmakeraw_ne_of_cooked (t : Termios)
    (h : t.c_lflag &&& ICANON ≠ 0 ∨ t.c_lflag &&& ECHO ≠ 0) : cfmakeraw t ≠ t := by
  intro heq
  rcases h with h | h
  · apply h
    rw [← heq]
    exact cfmakeraw_icanon t
  · apply h
    rw [← heq]
    exact cfmakeraw_echo t

/-! ## Facts about the two operating-system calls -/

theorem tcgetattr_kernel (fault : Bool) (fd : Int) (buf : Termios) (k : Kernel) :
    (tcgetattr fault fd buf k).2.2 = { k with calls := k.calls ++ [Call.tcgetattr fd] } := by
  unfold tcgetattr
  cases k.fdtab fd <;> cases fault <;> rfl

theorem tcgetattr_ok (fd : Int) (buf : Termios) (k : Kernel) (d : Nat)
    (h : k.fdtab fd = some d) : (tcgetattr false fd buf k).1 = 0
      ∧ (tcgetattr false fd buf k).2.1 = k.attrs d := by
  simp [tcgetattr, h]

theorem tcgetattr_fail (fault : Bool) (fd : Int) (buf : Termios) (k : Kernel)
    (h : (tcgetattr fault fd buf k).1 ≠ 0) : (tcgetattr fault fd buf k).2.1 = buf := by
  unfold tcgetattr at h ⊢
  cases hk : k.fdtab fd <;> cases fault <;> simp_all

theorem tcsetattr_now_ok (fd : Int) (t : Termios) (k : Kernel) (d : Nat)
    (h : k.fdtab fd = some d) :
    tcsetattr false fd TCSANOW t k =
      (0, { fdtab := k.fdtab, attrs := Function.update k.attrs d t,
            calls := k.calls ++ [Call.tcsetattr fd TCSANOW t] }) := by
  simp [tcsetattr, h, TCSANOW]

theorem tcsetattr_fdtab (fault : Bool) (fd act : Int) (t : Termios) (k : Kernel) :
    (tcsetattr fault fd act t k).2.fdtab = k.fdtab := by
  unfold tcsetattr
  cases k.fdtab fd
  · rfl
  · simp only
    split <;> rfl

theorem tcsetattr_calls (fault : Bool) (fd act : Int) (t : Termios) (k : Kernel) :
    (tcsetattr fault fd act t k).2.calls = k.calls ++ [Call.tcsetattr fd act t] := by
  unfold tcsetattr
  cases k.fdtab fd
  · rfl
  · simp only
    split <;> rfl

theorem tcsetattr_attrs_other (fault : Bool) (fd act : Int) (t : Termios) (k : Kernel) (d : Nat)
    (hd : k.fdtab fd ≠ some d) : (tcsetattr fault fd act t k).2.attrs d = k.attrs d := by
  unfold tcsetattr
  cases hk : k.fdtab fd with
  | none => rfl
  | some e =>
    have hne : d ≠ e := by
      intro hde
      apply hd
      rw [hk, hde]
    simp only
    split
    · rfl
    · simp [Function.update, hne]

/-! ## Facts about the two operations -/

theorem enter_ok (settings : Termios) (w : World) (d : Nat)
    (h : w.kernel.fdtab STDOUT_FILENO = some d) :
    enter_raw_mode settings false false w =
      { kernel :=
          { fdtab := w.kernel.fdtab
            attrs := Function.update w.kernel.attrs d (cfmakeraw (w.kernel.attrs d))
            calls := w.kernel.calls ++ [Call.tcgetattr STDOUT_FILENO] ++
              [Call.tcsetattr STDOUT_FILENO TCSANOW (cfmakeraw (w.kernel.attrs d))] }
        old_settings := w.kernel.attrs d } := by
  simp [enter_raw_mode, tcgetattr, tcsetattr, h, TCSANOW]

theorem exit_ok (w : World) (d : Nat) (h : w.kernel.fdtab STDOUT_FILENO = some d) :
    exit_raw_mode false w =
      { kernel :=
          { fdtab := w.kernel.fdtab
            attrs := Function.update w.kernel.attrs d w.old_settings
            calls := w.kernel.calls ++ [Call.tcsetattr STDOUT_FILENO TCSANOW w.old_settings] }
        old_settings := w.old_settings } := by
  simp [exit_raw_mode, tcsetattr, h, TCSANOW]

theorem enter_fdtab (settings : Termios) (fault_get fault_set : Bool) (w : World) :
    (enter_raw_mode settings fault_get fault_set w).kernel.fdtab = w.kernel.fdtab := by
  simp only [enter_raw_mode, tcsetattr_fdtab, tcgetattr_kernel]

theorem exit_fdtab (fault_set : Bool) (w : World) :
    (exit_raw_mode fault_set w).kernel.fdtab = w.kernel.fdtab := by
  simp only [exit_raw_mode, tcsetattr_fdtab]

theorem enter_attrs (settings : Termios) (w : World) (d : Nat)
    (h : w.kernel.fdtab STDOUT_FILENO = some d) :
    (enter_raw_mode settings false false w).kernel.attrs d = cfmakeraw (w.kernel.attrs d) := by
  rw [enter_ok settings w d h]
  simp

theorem enter_old (settings : Termios) (fault_set : Bool) (w : World) (d : Nat)
    (h : w.kernel.fdtab STDOUT_FILENO = some d) :
    (enter_raw_mode settings false fault_set w).old_settings = w.kernel.attrs d := by
  simp [enter_raw_mode, tcgetattr, h]

theorem exit_attrs (w : World) (d : Nat) (h : w.kernel.fdtab STDOUT_FILENO = some d) :
    (exit_raw_mode false w).kernel.attrs d = w.old_settings := by
  rw [exit_ok w d h]
  simp

theorem exit_old (fault_set : Bool) (w : World) :
    (exit_raw_mode fault_set w).old_settings = w.old_settings := rfl

theorem enter_calls (settings : Termios) (fault_get fault_set : Bool) (w : World) :
    (enter_raw_mode settings fault_get fault_set w).kernel.calls =
      w.kernel.calls ++ [Call.tcgetattr STDOUT_FILENO,
        Call.tcsetattr STDOUT_FILENO TCSANOW
          (cfmakeraw (tcgetattr fault_get STDOUT_FILENO settings w.kernel).2.1)] := by
  simp [enter_raw_mode, tcsetattr_calls, tcgetattr_kernel]

theorem exit_calls (fault_set : Bool) (w : World) :
    (exit_raw_mode fault_set w).kernel.calls =
      w.kernel.calls ++ [Call.tcsetattr STDOUT_FILENO TCSANOW w.old_settings] := by
  simp [exit_raw_mode, tcsetattr_calls]

theorem lastApplied_of_calls (k : Kernel) (l : List Call) (fd act : Int) (t : Termios)
    (h : k.calls = l ++ [Call.tcsetattr fd act t]) : lastApplied k = some t := by
  simp [lastApplied, h]

theorem cfmakeraw_rawSample : cfmakeraw rawSample = rawSample := by
  have hcc : Function.update (Function.update rawSample.c_cc VMIN 1) VTIME 0 = rawSample.c_cc := by
    funext i
    by_cases h5 : i = VTIME
    · subst h5
      simp [Function.update, rawSample, VTIME]
    · by_cases h6 : i = VMIN
      · subst h6
        simp [Function.update, rawSample, VTIME, VMIN]
      · simp [Function.update, h5, h6]
  have hi : clearFlags rawSample.c_iflag
      (IGNBRK ||| BRKINT ||| PARMRK ||| ISTRIP ||| INLCR ||| IGNCR ||| ICRNL ||| IXON)
        = rawSample.c_iflag := by decide
  have ho : clearFlags rawSample.c_oflag OPOST = rawSample.c_oflag := by decide
  have hl : clearFlags rawSample.c_lflag (ECHO ||| ECHONL ||| ICANON ||| ISIG ||| IEXTEN)
      = rawSample.c_lflag := by decide
  have hc : setFlags (clearFlags rawSample.c_cflag (CSIZE ||| PARENB)) CS8
      = rawSample.c_cflag := by decide
  unfold cfmakeraw
  rw [hcc, hi, ho, hl, hc]

theorem Inv_enter (d : Nat) (settings : Termios) (w : World)
    (h : w.kernel.fdtab STDOUT_FILENO = some d) :
    Inv d (enter_raw_mode settings false false w) := by
  refine ⟨?_, Or.inr ?_⟩
  · rw [enter_fdtab]
    exact h
  · rw [enter_attrs settings w d h, enter_old settings false w d h]

theorem Inv_run (d : Nat) (w : World) (op : Op) (h : Inv d w) : Inv d (op.run w) := by
  cases op with
  | enter settings =>
    refine ⟨?_, Or.inr ?_⟩
    · show (enter_raw_mode settings false false w).kernel.fdtab STDOUT_FILENO = some d
      rw [enter_fdtab]
      exact h.1
    · show (enter_raw_mode settings false false w).kernel.attrs d
        = cfmakeraw (enter_raw_mode settings false false w).old_settings
      rw [enter_attrs settings w d h.1, enter_old settings false w d h.1]
  | exit =>
    refine ⟨?_, Or.inl ?_⟩
    · show (exit_raw_mode false w).kernel.fdtab STDOUT_FILENO = some d
      rw [exit_fdtab]
      exact h.1
    · show (exit_raw_mode false w).kernel.attrs d = (exit_raw_mode false w).old_settings
      rw [exit_attrs w d h.1, exit_old]

theorem Inv_runOps (d : Nat) (ops : List Op) (w : World) (h : Inv d w) :
    Inv d (runOps ops w) := by
  induction ops generalizing w with
  | nil => exact h
  | cons op ops ih => exact ih (op.run w) (Inv_run d w op h)

/-- C1 (round trip): when standard output is a terminal device `d` whose
attributes are `C` and neither call is failed, `enter_raw_mode` followed at
once by `exit_raw_mode` leaves the attributes of `d` equal to `C`, and with
them the attributes of every device. -/
theorem enter_exit_round_trip (settings : Termios) (w : World) (d : Nat) (C : Termios)
    (h : w.kernel.fdtab STDOUT_FILENO = some d) (hC : w.kernel.attrs d = C) :
    (exit_raw_mode false (enter_raw_mode settings false false w)).kernel.attrs d = C
      ∧ (exit_raw_mode false (enter_raw_mode settings false false w)).kernel.attrs
          = w.kernel.attrs := by
  have h1 : (enter_raw_mode settings false false w).kernel.fdtab STDOUT_FILENO = some d := by
    rw [enter_fdtab]
    exact h
  rw [exit_ok _ d h1, enter_ok settings w d h]
  simp [hC]

theorem enter_exit_round_trip_witness :
    (sampleWorld cookedSample).kernel.fdtab STDOUT_FILENO = some 0
      ∧ (sampleWorld cookedSample).kernel.attrs 0 = cookedSample
      ∧ (exit_raw_mode false
          (enter_raw_mode Termios.zero false false (sampleWorld cookedSample))).kernel.attrs 0
          = cookedSample :=
  ⟨rfl, rfl,
    (enter_exit_round_trip Termios.zero (sampleWorld cookedSample) 0 cookedSample rfl rfl).1⟩

/-- C2 (snapshot overwrite): from a cooked attribute set `C` (canonical mode or
echo enabled) on the terminal behind standard output, `enter_raw_mode` twice
and then `exit_raw_mode`, none of the calls failed, leaves the device with
`cfmakeraw C`, which is the snapshot taken by the second enter, and not with
`C`. -/
theorem double_enter_exit_restores_second_snapshot (s1 s2 : Termios) (w : World) (d : Nat)
    (C : Termios) (h : w.kernel.fdtab STDOUT_FILENO = some d) (hC : w.kernel.attrs d = C)
    (hcooked : C.c_lflag &&& ICANON ≠ 0 ∨ C.c_lflag &&& ECHO ≠ 0) :
    (enter_raw_mode s2 false false (enter_raw_mode s1 false false w)).old_settings = cfmakeraw C
      ∧ (exit_raw_mode false
          (enter_raw_mode s2 false false (enter_raw_mode s1 false false w))).kernel.attrs d
          = cfmakeraw C
      ∧ (exit_raw_mode false
          (enter_raw_mode s2 false false (enter_raw_mode s1 false false w))).kernel.attrs d
          ≠ C := by
  have h1 : (enter_raw_mode s1 false false w).kernel.fdtab STDOUT_FILENO = some d := by
    rw [enter_fdtab]
    exact h
  have h2 : (enter_raw_mode s2 false false
      (enter_raw_mode s1 false false w)).kernel.fdtab STDOUT_FILENO = some d := by
    rw [enter_fdtab]
    exact h1
  have hold : (enter_raw_mode s2 false false (enter_raw_mode s1 false false w)).old_settings
      = cfmakeraw C := by
    rw [enter_old s2 false _ d h1, enter_attrs s1 w d h, hC]
  have hdev : (exit_raw_mode false
      (enter_raw_mode s2 false false (enter_raw_mode s1 false false w))).kernel.attrs d
        = cfmakeraw C := by
    rw [exit_attrs _ d h2, hold]
  refine ⟨hold, hdev, ?_⟩
  rw [hdev]
  exact cfmakeraw_ne_of_cooked C hcooked

theorem double_enter_exit_restores_second_snapshot_witness :
    (sampleWorld cookedSample).kernel.fdtab STDOUT_FILENO = some 0
      ∧ (sampleWorld cookedSample).kernel.attrs 0 = cookedSample
      ∧ (cookedSample.c_lflag &&& ICANON ≠ 0 ∨ cookedSample.c_lflag &&& ECHO ≠ 0)
      ∧ (exit_raw_mode false (enter_raw_mode Termios.zero false false
          (enter_raw_mode Termios.zero false false (sampleWorld cookedSample)))).kernel.attrs 0
          ≠ cookedSample :=
  ⟨rfl, rfl, Or.inl (by decide),
    (double_enter_exit_restores_second_snapshot Termios.zero Termios.zero
      (sampleWorld cookedSample) 0 cookedSample rfl rfl (Or.inl (by decide))).2.2⟩

/-- C3, as stated, fails: on the sample cooked terminal the attribute set that
`enter_raw_mode` applies has a minimum read count of 1, so it is not the
configuration that returns at once with whatever is available (`MIN = 0`,
`TIME = 0`). -/
theorem enter_applied_set_is_not_polling :
    lastApplied (enter_raw_mode Termios.zero false false (sampleWorld cookedSample)).kernel
        = some (cfmakeraw cookedSample)
      ∧ (cfmakeraw cookedSample).c_cc VMIN = 1
      ∧ ¬ pollingRead (cfmakeraw cookedSample) := by
  refine ⟨rfl, cfmakeraw_vmin _, ?_⟩
  intro hp
  have h1 := cfmakeraw_vmin cookedSample
  rw [hp.1] at h1
  exact absurd h1 (by decide)

/-- C3 (raw semantics, amended): whatever the initial state, the content of
the local buffer and the outcome of the two calls, the attribute set that
`enter_raw_mode` passes to the apply call has `ICANON`, `ECHO` and `ISIG`
cleared, a minimum read count of 1 and an inter-character timeout of 0: a read
blocks until one byte is available. -/
theorem enter_applies_raw_attributes (settings : Termios) (fault_get fault_set : Bool)
    (w : World) :
    ∃ a, lastApplied (enter_raw_mode settings fault_get fault_set w).kernel = some a
      ∧ (enter_raw_mode settings fault_get fault_set w).kernel.calls
          = w.kernel.calls ++ [Call.tcgetattr STDOUT_FILENO,
              Call.tcsetattr STDOUT_FILENO TCSANOW a]
      ∧ a.c_lflag &&& ICANON = 0 ∧ a.c_lflag &&& ECHO = 0 ∧ a.c_lflag &&& ISIG = 0
      ∧ blockingByteRead a := by
  refine ⟨cfmakeraw (tcgetattr fault_get STDOUT_FILENO settings w.kernel).2.1, ?_,
    enter_calls settings fault_get fault_set w, cfmakeraw_icanon _, cfmakeraw_echo _,
    cfmakeraw_isig _, cfmakeraw_vmin _, cfmakeraw_vtime _⟩
  apply lastApplied_of_calls _ (w.kernel.calls ++ [Call.tcgetattr STDOUT_FILENO])
    STDOUT_FILENO TCSANOW
  rw [enter_calls]
  simp

/-- C4 (snapshot capture): when the query succeeds, whatever the outcome of the
apply call and whatever the slot held before, after `enter_raw_mode` the slot
`old_settings` equals the attributes the device had just before the call, and
the result does not depend on the prior snapshot. -/
theorem enter_captures_pre_call_attributes (settings prior : Termios) (fault_set : Bool)
    (w : World) (d : Nat) (h : w.kernel.fdtab STDOUT_FILENO = some d) :
    (enter_raw_mode settings false fault_set w).old_settings = w.kernel.attrs d
      ∧ enter_raw_mode settings false fault_set { kernel := w.kernel, old_settings := prior }
          = enter_raw_mode settings false fault_set w :=
  ⟨enter_old settings fault_set w d h, rfl⟩

theorem enter_captures_pre_call_attributes_witness :
    (sampleWorld cookedSample).kernel.fdtab STDOUT_FILENO = some 0
      ∧ (enter_raw_mode Termios.zero false true
          { kernel := (sampleWorld cookedSample).kernel, old_settings := rawSample }).old_settings
          = (sampleWorld cookedSample).kernel.attrs 0 :=
  ⟨rfl, (enter_captures_pre_call_attributes Termios.zero rawSample true
    { kernel := (sampleWorld cookedSample).kernel, old_settings := rawSample } 0 rfl).1⟩

/-- C5 (exit without enter): from the state at program start, whatever the
operating system holds and whatever the outcome of the call, `exit_raw_mode`
issues exactly one call, an apply on standard output with the zero-valued
attribute set. -/
theorem exit_before_enter_applies_zero (fault_set : Bool) (k : Kernel) :
    (World.start k).old_settings = Termios.zero
      ∧ (exit_raw_mode fault_set (World.start k)).kernel.calls
          = k.calls ++ [Call.tcsetattr STDOUT_FILENO TCSANOW Termios.zero]
      ∧ lastApplied (exit_raw_mode fault_set (World.start k)).kernel = some Termios.zero :=
  ⟨rfl, exit_calls fault_set (World.start k),
    lastApplied_of_calls _ k.calls STDOUT_FILENO TCSANOW _ (exit_calls fault_set (World.start k))⟩

/-- C6 (failures are ignored): for every state, every content of the local
buffer and every outcome of the query and apply calls, `enter_raw_mode` issues
the query and then the apply on the raw transformation of the buffer, and
stores the buffer in `old_settings`; `exit_raw_mode` issues the apply on
`old_settings`.  When the query fails the buffer is the unfilled one, so the
snapshot becomes that content and the apply call carries its raw
transformation. -/
theorem failures_silently_ignored (settings : Termios) (fault_get fault_set : Bool)
    (w : World) :
    (enter_raw_mode settings fault_get fault_set w).kernel.calls
        = w.kernel.calls ++ [Call.tcgetattr STDOUT_FILENO,
            Call.tcsetattr STDOUT_FILENO TCSANOW
              (cfmakeraw (tcgetattr fault_get STDOUT_FILENO settings w.kernel).2.1)]
      ∧ (enter_raw_mode settings fault_get fault_set w).old_settings
          = (tcgetattr fault_get STDOUT_FILENO settings w.kernel).2.1
      ∧ (exit_raw_mode fault_set w).kernel.calls
          = w.kernel.calls ++ [Call.tcsetattr STDOUT_FILENO TCSANOW w.old_settings]
      ∧ ((tcgetattr fault_get STDOUT_FILENO settings w.kernel).1 ≠ 0 →
          (enter_raw_mode settings fault_get fault_set w).old_settings = settings
          ∧ (enter_raw_mode settings fault_get fault_set w).kernel.calls
              = w.kernel.calls ++ [Call.tcgetattr STDOUT_FILENO,
                  Call.tcsetattr STDOUT_FILENO TCSANOW (cfmakeraw settings)]) := by
  have hold : (enter_raw_mode settings fault_get fault_set w).old_settings
      = (tcgetattr fault_get STDOUT_FILENO settings w.kernel).2.1 := rfl
  refine ⟨enter_calls settings fault_get fault_set w, hold, exit_calls fault_set w, ?_⟩
  intro hq
  have hbuf := tcgetattr_fail fault_get STDOUT_FILENO settings w.kernel hq
  refine ⟨by rw [hold, hbuf], ?_⟩
  rw [enter_calls, hbuf]

theorem failures_silently_ignored_witness :
    (tcgetattr false STDOUT_FILENO rawSample (pipedWorld cookedSample).kernel).1 ≠ 0
      ∧ (enter_raw_mode rawSample false false (pipedWorld cookedSample)).old_settings = rawSample
      ∧ (enter_raw_mode rawSample false false (pipedWorld cookedSample)).kernel.calls
          = [Call.tcgetattr STDOUT_FILENO,
              Call.tcsetattr STDOUT_FILENO TCSANOW (cfmakeraw rawSample)] :=
  ⟨by decide,
    (failures_silently_ignored rawSample false false (pipedWorld cookedSample)).2.2.2
      (by decide)⟩

/-- C7 (fixed target): the descriptor is 1; every call that `enter_raw_mode`
and `exit_raw_mode` add to the record is made on it, and the attributes of a
device that is not the one behind descriptor 1 are left as they were by both
operations, whatever the outcome of the calls. -/
theorem only_stdout_device_touched (settings : Termios) (fault_get fault_set : Bool)
    (w : World) (d : Nat) (hd : w.kernel.fdtab STDOUT_FILENO ≠ some d) :
    STDOUT_FILENO = 1
      ∧ (∀ c ∈ (enter_raw_mode settings fault_get fault_set w).kernel.calls.drop
            w.kernel.calls.length, c.fd = 1)
      ∧ (∀ c ∈ (exit_raw_mode fault_set w).kernel.calls.drop w.kernel.calls.length, c.fd = 1)
      ∧ (enter_raw_mode settings fault_get fault_set w).kernel.attrs d = w.kernel.attrs d
      ∧ (exit_raw_mode fault_set w).kernel.attrs d = w.kernel.attrs d := by
  refine ⟨rfl, ?_, ?_, ?_, ?_⟩
  · rw [enter_calls, List.drop_left]
    intro c hc
    simp only [List.mem_cons, List.mem_singleton, List.not_mem_nil, or_false] at hc
    rcases hc with hc | hc <;> rw [hc] <;> rfl
  · rw [exit_calls, List.drop_left]
    intro c hc
    simp only [List.mem_singleton] at hc
    rw [hc]
    rfl
  · show (tcsetattr fault_set STDOUT_FILENO TCSANOW _
      (tcgetattr fault_get STDOUT_FILENO settings w.kernel).2.2).2.attrs d = w.kernel.attrs d
    rw [tcsetattr_attrs_other, tcgetattr_kernel]
    rw [tcgetattr_kernel]
    exact hd
  · exact tcsetattr_attrs_other fault_set STDOUT_FILENO TCSANOW w.old_settings w.kernel d hd

theorem only_stdout_device_touched_witness :
    (sampleWorld cookedSample).kernel.fdtab STDOUT_FILENO ≠ some 1
      ∧ (enter_raw_mode Termios.zero false false (sampleWorld cookedSample)).kernel.attrs 1
          = (sampleWorld cookedSample).kernel.attrs 1
      ∧ (exit_raw_mode false (sampleWorld cookedSample)).kernel.attrs 1
          = (sampleWorld cookedSample).kernel.attrs 1 :=
  ⟨by decide,
    (only_stdout_device_touched Termios.zero false false (sampleWorld cookedSample) 1
      (by decide)).2.2.2⟩

/-- C9 (reachable-state invariant): after a first `enter_raw_mode` on a
terminal and then any finite sequence of `enter_raw_mode` and `exit_raw_mode`
calls, none of them failed, the attributes of the device behind standard
output equal `old_settings` or `cfmakeraw old_settings`. -/
theorem reachable_device_is_snapshot_or_raw (settings : Termios) (ops : List Op) (w : World)
    (d : Nat) (h : w.kernel.fdtab STDOUT_FILENO = some d) :
    (runOps ops (enter_raw_mode settings false false w)).kernel.attrs d
        = (runOps ops (enter_raw_mode settings false false w)).old_settings
      ∨ (runOps ops (enter_raw_mode settings false false w)).kernel.attrs d
        = cfmakeraw (runOps ops (enter_raw_mode settings false false w)).old_settings :=
  (Inv_runOps d ops _ (Inv_enter d settings w h)).2

theorem reachable_device_is_snapshot_or_raw_witness :
    (sampleWorld cookedSample).kernel.fdtab STDOUT_FILENO = some 0
      ∧ ((runOps [Op.enter rawSample, Op.exit, Op.exit, Op.enter Termios.zero]
            (enter_raw_mode Termios.zero false false (sampleWorld cookedSample))).kernel.attrs 0
          = (runOps [Op.enter rawSample, Op.exit, Op.exit, Op.enter Termios.zero]
            (enter_raw_mode Termios.zero false false (sampleWorld cookedSample))).old_settings
        ∨ (runOps [Op.enter rawSample, Op.exit, Op.exit, Op.enter Termios.zero]
            (enter_raw_mode Termios.zero false false (sampleWorld cookedSample))).kernel.attrs 0
          = cfmakeraw (runOps [Op.enter rawSample, Op.exit, Op.exit, Op.enter Termios.zero]
            (enter_raw_mode Termios.zero false false (sampleWorld cookedSample))).old_settings) :=
  ⟨rfl, reachable_device_is_snapshot_or_raw Termios.zero
    [Op.enter rawSample, Op.exit, Op.exit, Op.enter Termios.zero]
    (sampleWorld cookedSample) 0 rfl⟩

/-- C10, as stated, fails: when the attribute set `C` is already raw, the
snapshot after the second `enter_raw_mode` is `C` itself, as it was after the
first. -/
theorem double_enter_snapshot_unchanged_on_raw :
    (sampleWorld rawSample).kernel.fdtab STDOUT_FILENO = some 0
      ∧ (sampleWorld rawSample).kernel.attrs 0 = rawSample
      ∧ (enter_raw_mode Termios.zero false false (sampleWorld rawSample)).old_settings
          = rawSample
      ∧ (enter_raw_mode Termios.zero false false
          (enter_raw_mode Termios.zero false false (sampleWorld rawSample))).old_settings
          = rawSample := by
  refine ⟨rfl, rfl, rfl, ?_⟩
  have h : (enter_raw_mode Termios.zero false false
      (enter_raw_mode Termios.zero false false (sampleWorld rawSample))).old_settings
        = cfmakeraw rawSample := rfl
  rw [h, cfmakeraw_rawSample]

/-- C10 (double enter, amended): with standard output a terminal whose
attributes are `C` and no call failed, the device attributes after two
`enter_raw_mode` calls equal those after one; the snapshot is `C` after the
first call and `cfmakeraw C` after the second, and the second differs from `C`
exactly when `C` is not already raw, in particular when `C` is cooked. -/
theorem double_enter_device_idempotent (s1 s2 : Termios) (w : World) (d : Nat) (C : Termios)
    (h : w.kernel.fdtab STDOUT_FILENO = some d) (hC : w.kernel.attrs d = C) :
    (enter_raw_mode s2 false false (enter_raw_mode s1 false false w)).kernel.attrs d
        = (enter_raw_mode s1 false false w).kernel.attrs d
      ∧ (enter_raw_mode s1 false false w).old_settings = C
      ∧ (enter_raw_mode s2 false false (enter_raw_mode s1 false false w)).old_settings
          = cfmakeraw C
      ∧ ((enter_raw_mode s2 false false (enter_raw_mode s1 false false w)).old_settings ≠ C
          ↔ cfmakeraw C ≠ C)
      ∧ (C.c_lflag &&& ICANON ≠ 0 ∨ C.c_lflag &&& ECHO ≠ 0 →
          (enter_raw_mode s2 false false (enter_raw_mode s1 false false w)).old_settings ≠ C) := by
  have h1 : (enter_raw_mode s1 false false w).kernel.fdtab STDOUT_FILENO = some d := by
    rw [enter_fdtab]
    exact h
  have hold : (enter_raw_mode s2 false false (enter_raw_mode s1 false false w)).old_settings
      = cfmakeraw C := by
    rw [enter_old s2 false _ d h1, enter_attrs s1 w d h, hC]
  refine ⟨?_, ?_, hold, ?_, ?_⟩
  · rw [enter_attrs s2 _ d h1, enter_attrs s1 w d h, cfmakeraw_idem]
  · rw [enter_old s1 false w d h, hC]
  · rw [hold]
  · intro hcooked
    rw [hold]
    exact cfmakeraw_ne_of_cooked C hcooked

theorem double_enter_device_idempotent_witness :
    (sampleWorld cookedSample).kernel.fdtab STDOUT_FILENO = some 0
      ∧ (sampleWorld cookedSample).kernel.attrs 0 = cookedSample
      ∧ (enter_raw_mode rawSample false false
          (enter_raw_mode Termios.zero false false (sampleWorld cookedSample))).kernel.attrs 0
          = (enter_raw_mode Termios.zero false false (sampleWorld cookedSample)).kernel.attrs 0
      ∧ (enter_raw_mode rawSample false false
          (enter_raw_mode Termios.zero false false (sampleWorld cookedSample))).old_settings
          = cfmakeraw cookedSample :=
  ⟨rfl, rfl,
    (double_enter_device_idempotent Termios.zero rawSample (sampleWorld cookedSample) 0
      cookedSample rfl rfl).1,
    (double_enter_device_idempotent Termios.zero rawSample (sampleWorld cookedSample) 0
      cookedSample rfl rfl).2.2.1⟩

end RawMode
